import Mathlib

set_option maxRecDepth 100000

/-!
Shallow embedding of `src/main.py`, a Telegram support-desk bot backed by the
GigaChat LLM.  Pure Python functions become Lean functions; the mutable module
state (`sessions`, the written files) becomes an explicit `StoreState` that the
handlers transform; clock reads (`datetime.utcnow()`) become explicit
`DateTime` parameters; the external LLM call becomes an oracle returning
either the extracted reply text or the text of the raised exception.
-/

/-- The fixed system prompt (`SYSTEM_PROMPT` in main.py, one string built from
four adjacent literals). -/
def SYSTEM_PROMPT : String :=
  "Вы — бот технической поддержки. Ваша задача: помогать пользователям решать их технические проблемы, давать инструкции и советы, а если информации недостаточно — просить уточнения."

/-- Role-tagged prompt items (langchain `SystemMessage` / `HumanMessage`).
main.py builds prompts out of these two constructors only: the bot's own
replies are appended as `SystemMessage` (line 122). -/
inductive Msg where
  | system (content : String)
  | human (content : String)
deriving DecidableEq

/-- One record of the human-readable `history` list:
`{"role": ..., "text": ..., "ts": ...}`. -/
structure HistRec where
  role : String
  text : String
  ts : String
deriving DecidableEq

/-- The per-user session value: `{"messages": [...], "history": [...]}`. -/
structure Session where
  messages : List Msg
  history : List HistRec
deriving DecidableEq

/-- The module-level mutable state: the `sessions` dict plus the files written
to the working directory (filename, content), in order of creation. -/
structure StoreState where
  sessions : Nat → Option Session
  files : List (String × String)

/-- A wall-clock reading, standing for one `datetime.utcnow()` call. -/
structure DateTime where
  year : Nat
  month : Nat
  day : Nat
  hour : Nat
  minute : Nat
  second : Nat
  microsecond : Nat
deriving DecidableEq

/-- Zero-padded fixed-width decimal rendering, as the numeric `strftime`
directives produce for in-range field values. -/
def fixedDigits : Nat → Nat → List Char
  | 0, _ => []
  | w + 1, n => fixedDigits w (n / 10) ++ [Nat.digitChar (n % 10)]

/-- `datetime.strftime("%Y%m%d_%H%M%S")`. -/
def strftimeCompact (d : DateTime) : String :=
  ⟨fixedDigits 4 d.year ++ fixedDigits 2 d.month ++ fixedDigits 2 d.day ++ ['_'] ++
    fixedDigits 2 d.hour ++ fixedDigits 2 d.minute ++ fixedDigits 2 d.second⟩

/-- `datetime.isoformat()`: `YYYY-MM-DDTHH:MM:SS`, plus `.ffffff` when the
microsecond field is nonzero. -/
def isoformat (d : DateTime) : String :=
  ⟨fixedDigits 4 d.year ++ ['-'] ++ fixedDigits 2 d.month ++ ['-'] ++ fixedDigits 2 d.day ++
    ['T'] ++ fixedDigits 2 d.hour ++ [':'] ++ fixedDigits 2 d.minute ++ [':'] ++
    fixedDigits 2 d.second⟩ ++
  (if d.microsecond = 0 then "" else ⟨'.' :: fixedDigits 6 d.microsecond⟩)

/-- Model of the Python test `not text.strip()`: true iff every character of
the string is whitespace (in particular for the empty string). -/
def pyIsBlank (s : String) : Bool :=
  s.data.all Char.isWhitespace

/-- Model of Python `str.upper()` on the ASCII role names used here. -/
def pyUpper (s : String) : String :=
  ⟨s.data.map Char.toUpper⟩

/-- Model of the Python slice `xs[-k:]` for `k : Nat`: for `k = 0` the index
is `-0 = 0`, so the slice is the whole list; for `k > 0` it is the last
`min k (len xs)` elements. -/
def pyTailSlice {α : Type} (k : Nat) (xs : List α) : List α :=
  if k = 0 then xs else xs.drop (xs.length - k)

/-- `get_recent_messages(messages, max_pairs=8)` (main.py lines 60-66): keep
`messages[0]` plus the Python slice `others[-(max_pairs * 2):]`; an empty
input yields the defensive `[SystemMessage(SYSTEM_PROMPT)]`. -/
def get_recent_messages (messages : List Msg) (max_pairs : Nat) : List Msg :=
  match messages with
  | [] => [Msg.system SYSTEM_PROMPT]
  | sys :: others => sys :: pyTailSlice (max_pairs * 2) others

/-- `call_gigachat(messages)` (main.py lines 68-74).  The external call
`giga.invoke` together with the `getattr(res, "content", str(res))`
extraction is abstracted as an oracle `invoke` returning either the reply
text or, when the underlying call raises, the exception's text `e`; the
`except` branch returns the error string instead of propagating. -/
def call_gigachat (invoke : List Msg → Except String String) (messages : List Msg) : String :=
  match invoke (get_recent_messages messages 8) with
  | Except.ok content => content
  | Except.error e => "Ошибка при обращении к GigaChat: " ++ e

/-- `init_session(user_id)` (main.py lines 43-50): create the session with the
system message and the system history record iff the key is absent. -/
def init_session (ss : Nat → Option Session) (user_id : Nat) (now : DateTime) :
    Nat → Option Session :=
  match ss user_id with
  | some _ => ss
  | none => fun u =>
      if u = user_id then
        some { messages := [Msg.system SYSTEM_PROMPT],
               history := [{ role := "system", text := SYSTEM_PROMPT, ts := isoformat now }] }
      else ss u

/-- The first `f.write` of `save_dialog_to_file_and_clear` (line 83). -/
def transcriptHeader (user_id : Nat) (now2 : DateTime) (status : String) : String :=
  "User ID: " ++ toString user_id ++ "\nSaved at: " ++ isoformat now2 ++
    " UTC\nStatus: " ++ status ++ "\n\n"

/-- One loop iteration's `f.write` (line 85): `{ts}  {ROLE}: {text}` plus the
blank line. -/
def transcriptLine (item : HistRec) : String :=
  item.ts ++ "  " ++ pyUpper item.role ++ ": " ++ item.text ++ "\n\n"

/-- The sequence of `f.write(...)` calls of the `with open` block, in order. -/
def transcriptWrites (user_id : Nat) (now2 : DateTime) (status : String)
    (history : List HistRec) : List String :=
  transcriptHeader user_id now2 status :: history.map transcriptLine

/-- The file contents accumulated by performing writes in order. -/
def fileContent (writes : List String) : String :=
  writes.foldl (fun acc w => acc ++ w) ""

/-- `save_dialog_to_file_and_clear(user_id, status)` (main.py lines 76-87).
`now1`/`now2` are the two `datetime.utcnow()` reads (filename timestamp,
header timestamp).  `failAt = some k` injects an exception raised by the
file open / a write after `k` writes have landed: the partially written file
remains, the exception propagates (`Except.error`), and — because
`sessions.pop` comes after the `with` block — the session map is untouched.
`failAt = none` is the normal run. -/
def save_dialog_to_file_and_clear (st : StoreState) (user_id : Nat) (status : String)
    (now1 now2 : DateTime) (failAt : Option Nat) : StoreState × Except Unit String :=
  match st.sessions user_id with
  | none => (st, Except.ok "")
  | some sess =>
    if sess.history.isEmpty then (st, Except.ok "")
    else
      let ts := strftimeCompact now1
      let filename := "dialog_" ++ toString user_id ++ "_" ++ status ++ "_" ++ ts ++ ".txt"
      let writes := transcriptWrites user_id now2 status sess.history
      match failAt with
      | some k =>
          ({ st with files := st.files ++ [(filename, fileContent (writes.take k))] },
           Except.error ())
      | none =>
          ({ sessions := fun u => if u = user_id then none else st.sessions u,
             files := st.files ++ [(filename, fileContent writes)] },
           Except.ok filename)

/-- The outbound replies the handlers produce. -/
inductive Output where
  | askText
  | answer (text : String) (withButtons : Bool)
  | greeting
  | savedNote (filename : String)
  | emptyNote
deriving DecidableEq

/-- `handle_user_message` (main.py lines 100-128).  `text?` is
`message.text` (absent for non-text messages; `message.text or ""` maps
`none` to `""`).  `tsInit`, `ts1`, `ts2` are the clock reads for session
creation, the user record and the bot record.  The `init_session(user_id)`
call followed by the `sessions[user_id]` lookups is rendered as one match on
the current map (creation iff absent); all other keys are untouched. -/
def handle_user_message (invoke : List Msg → Except String String) (st : StoreState)
    (user_id : Nat) (text? : Option String) (tsInit ts1 ts2 : DateTime) :
    StoreState × Output :=
  let text := text?.getD ""
  if pyIsBlank text then (st, Output.askText)
  else
    let sess :=
      match st.sessions user_id with
      | some s => s
      | none => { messages := [Msg.system SYSTEM_PROMPT],
                  history := [{ role := "system", text := SYSTEM_PROMPT,
                                ts := isoformat tsInit }] }
    let messages1 := sess.messages ++ [Msg.human text]
    let history1 := sess.history ++ [{ role := "user", text := text, ts := isoformat ts1 }]
    let bot_reply := call_gigachat invoke messages1
    let messages2 := messages1 ++ [Msg.system bot_reply]
    let history2 := history1 ++ [{ role := "bot", text := bot_reply, ts := isoformat ts2 }]
    ({ st with sessions := fun u =>
          if u = user_id then some { messages := messages2, history := history2 }
          else st.sessions u },
     Output.answer bot_reply true)

/-- `cmd_start` (main.py lines 91-98): ensure the session, greet. -/
def cmd_start (st : StoreState) (user_id : Nat) (now : DateTime) : StoreState × Output :=
  ({ st with sessions := init_session st.sessions user_id now }, Output.greeting)

/-- `cb_solved` / `cb_unsolved` (main.py lines 130-151): save-and-clear with
the chosen status; a raised exception propagates out of the handler. -/
def cb_resolution (st : StoreState) (user_id : Nat) (solved : Bool)
    (now1 now2 : DateTime) (failAt : Option Nat) : StoreState × Except Unit Output :=
  let status := if solved then "solved" else "unsolved"
  match save_dialog_to_file_and_clear st user_id status now1 now2 failAt with
  | (st2, Except.ok fn) =>
      (st2, Except.ok (if fn = "" then Output.emptyNote else Output.savedNote fn))
  | (st2, Except.error e) => (st2, Except.error e)

/-- One inbound transport event, carrying its clock readings. -/
inductive Event where
  | start (user_id : Nat) (now : DateTime)
  | msg (user_id : Nat) (text? : Option String) (tsInit ts1 ts2 : DateTime)
  | resolve (user_id : Nat) (solved : Bool) (now1 now2 : DateTime) (failAt : Option Nat)

/-- Effect of one event on the module state. -/
def step (invoke : List Msg → Except String String) (st : StoreState) (e : Event) :
    StoreState :=
  match e with
  | Event.start uid now => (cmd_start st uid now).1
  | Event.msg uid t ti t1 t2 => (handle_user_message invoke st uid t ti t1 t2).1
  | Event.resolve uid solved n1 n2 fa => (cb_resolution st uid solved n1 n2 fa).1

/-- The state at process start: empty `sessions` dict, no files written. -/
def initialStore : StoreState :=
  { sessions := fun _ => none, files := [] }

/-- The state after a sequence of inbound events from process start. -/
def runEvents (invoke : List Msg → Except String String) (es : List Event) : StoreState :=
  es.foldl (step invoke) initialStore

/-- The `YYYYMMDD_HHMMSS` pattern: eight digits, an underscore, six digits. -/
def isTsPattern (s : String) : Bool :=
  match s.data with
  | [y1, y2, y3, y4, mo1, mo2, d1, d2, sep, h1, h2, mi1, mi2, se1, se2] =>
      ([y1, y2, y3, y4, mo1, mo2, d1, d2, h1, h2, mi1, mi2, se1, se2].all Char.isDigit)
        && (sep == '_')
  | _ => false

/-- The filename shape claimed by the spec: exactly
`dialog_<userId>_<status>_<YYYYMMDD_HHMMSS>` with `status` one of
`solved`/`unsolved` (spec-side predicate, written from the spec's words for
comparison with the code's filename). -/
def filenameHasSpecShape (user_id : Nat) (status : String) (fn : String) : Bool :=
  let pre := "dialog_" ++ toString user_id ++ "_" ++ status ++ "_"
  ((status == "solved") || (status == "unsolved"))
    && (fn.data.take pre.data.length == pre.data)
    && isTsPattern ⟨fn.data.drop pre.data.length⟩

/-! ## Helper lemmas -/

/-- A string append whose left factor is nonempty is nonempty. -/
theorem str_append_ne_empty (a b : String) (ha : a.data ≠ []) : a ++ b ≠ "" := by
  intro h
  have h2 := congrArg String.data h
  rw [String.data_append] at h2
  simp only [String.data] at h2
  exact ha (List.append_eq_nil.mp h2).1

/-! ## Claim C1: the windowing function -/

/-- Claim C1 (counterexample): for `maxPairs = 0` the Python slice
`others[-(0):]` is `others[0:]`, the whole tail, so on a three-element list
the result has length 3, not `min 3 (1 + 2*0) = 1`. -/
theorem c1_windowing_counterexample :
    ¬ ((get_recent_messages [Msg.system "s", Msg.human "a", Msg.human "b"] 0).length
        = min ([Msg.system "s", Msg.human "a", Msg.human "b"] : List Msg).length (1 + 2 * 0)) := by
  decide

/-- Claim C1 (amended): for every non-empty `messages` and every
`maxPairs ≥ 1`, `get_recent_messages` returns a sequence whose first element
is `messages[0]`, whose length is `min (len messages) (1 + 2*maxPairs)`, and
whose tail is the last `maxPairs * 2` elements of `messages[1:]` in their
original order. -/
theorem c1_windowing_amended (messages : List Msg) (max_pairs : Nat)
    (h1 : messages ≠ []) (h2 : 1 ≤ max_pairs) :
    (get_recent_messages messages max_pairs).head? = messages.head?
    ∧ (get_recent_messages messages max_pairs).length
        = min messages.length (1 + 2 * max_pairs)
    ∧ (get_recent_messages messages max_pairs).tail
        = messages.tail.drop (messages.tail.length - max_pairs * 2) := by
  cases messages with
  | nil => exact absurd rfl h1
  | cons x xs =>
    have hk : ¬ (max_pairs * 2 = 0) := by omega
    refine ⟨by simp [get_recent_messages], ?_, ?_⟩
    · simp [get_recent_messages, pyTailSlice, hk]
      omega
    · simp [get_recent_messages, pyTailSlice, hk]

/-- Witness for C1 (amended) at `messages = [system "s", human "a"]`,
`maxPairs = 8`. -/
theorem c1_windowing_witness :
    (([Msg.system "s", Msg.human "a"] : List Msg) ≠ [] ∧ 1 ≤ 8)
    ∧ ((get_recent_messages [Msg.system "s", Msg.human "a"] 8).head?
          = ([Msg.system "s", Msg.human "a"] : List Msg).head?
      ∧ (get_recent_messages [Msg.system "s", Msg.human "a"] 8).length
          = min ([Msg.system "s", Msg.human "a"] : List Msg).length (1 + 2 * 8)
      ∧ (get_recent_messages [Msg.system "s", Msg.human "a"] 8).tail
          = ([Msg.system "s", Msg.human "a"] : List Msg).tail.drop
              (([Msg.system "s", Msg.human "a"] : List Msg).tail.length - 8 * 2)) :=
  ⟨⟨by decide, by decide⟩, c1_windowing_amended _ 8 (by decide) (by decide)⟩

/-! ## Concrete inputs used by witnesses and counterexamples -/

/-- A concrete clock reading. -/
def sampleDT : DateTime := ⟨2026, 1, 1, 12, 0, 0, 0⟩

/-- A one-user store: user 7 has a fresh session (system entries only, as
after `/start`). -/
def sampleStore : StoreState :=
  { sessions := fun u =>
      if u = 7 then
        some { messages := [Msg.system SYSTEM_PROMPT],
               history := [{ role := "system", text := SYSTEM_PROMPT, ts := "t0" }] }
      else none,
    files := [] }

/-! ## Claim C3: the gateway never propagates an exception -/

/-- Claim C3: whenever the underlying LLM call raises (here: the oracle
returns the exception text `e` on the windowed prompt), `call_gigachat`
returns a non-empty displayable string that embeds the failure detail `e`. -/
theorem c3_gateway_error (invoke : List Msg → Except String String) (messages : List Msg)
    (e : String) (h : invoke (get_recent_messages messages 8) = Except.error e) :
    call_gigachat invoke messages ≠ ""
    ∧ ∃ pre, pre ≠ "" ∧ call_gigachat invoke messages = pre ++ e := by
  have hc : call_gigachat invoke messages = "Ошибка при обращении к GigaChat: " ++ e := by
    simp [call_gigachat, h]
  constructor
  · rw [hc]
    exact str_append_ne_empty _ _ (by decide)
  · exact ⟨"Ошибка при обращении к GigaChat: ", by decide, hc⟩

/-- Witness for C3: an oracle that always raises a network error. -/
theorem c3_gateway_error_witness :
    (fun _ : List Msg => (Except.error "network down" : Except String String))
        (get_recent_messages [] 8) = Except.error "network down"
    ∧ (call_gigachat (fun _ => Except.error "network down") [] ≠ ""
       ∧ ∃ pre, pre ≠ ""
           ∧ call_gigachat (fun _ => Except.error "network down") [] = pre ++ "network down") :=
  ⟨rfl, c3_gateway_error _ [] "network down" rfl⟩

/-! ## Claim C5: saveAndClear with nothing to save -/

/-- Claim C5: if no session exists for the user, or its history is empty,
`save_dialog_to_file_and_clear` returns the empty result, writes no file, and
leaves the whole store (session map and files) unchanged. -/
theorem c5_save_nothing (st : StoreState) (user_id : Nat) (status : String)
    (now1 now2 : DateTime) (failAt : Option Nat)
    (h : st.sessions user_id = none
         ∨ ∃ s, st.sessions user_id = some s ∧ s.history = []) :
    save_dialog_to_file_and_clear st user_id status now1 now2 failAt = (st, Except.ok "") := by
  rcases h with h | ⟨s, hs, hh⟩
  · simp [save_dialog_to_file_and_clear, h]
  · simp [save_dialog_to_file_and_clear, hs, hh]

/-- Witness for C5: the empty store at process start, user 3. -/
theorem c5_save_nothing_witness :
    (initialStore.sessions 3 = none
      ∨ ∃ s, initialStore.sessions 3 = some s ∧ s.history = [])
    ∧ save_dialog_to_file_and_clear initialStore 3 "solved" sampleDT sampleDT none
        = (initialStore, Except.ok "") :=
  ⟨Or.inl rfl, c5_save_nothing _ 3 "solved" sampleDT sampleDT none (Or.inl rfl)⟩

/-! ## Claim C8: whitespace-only text -/

/-- Claim C8: for a message whose text is blank or whitespace-only, the
handler replies asking for real content and performs no state mutation at
all (no session created, nothing appended, no file written). -/
theorem c8_blank_text (invoke : List Msg → Except String String) (st : StoreState)
    (user_id : Nat) (text? : Option String) (tsInit ts1 ts2 : DateTime)
    (h : pyIsBlank (text?.getD "") = true) :
    handle_user_message invoke st user_id text? tsInit ts1 ts2 = (st, Output.askText) := by
  simp [handle_user_message, h]

/-- Witness for C8: the spec's scenario, text `"  "`. -/
theorem c8_blank_text_witness :
    pyIsBlank ((some "  " : Option String).getD "") = true
    ∧ handle_user_message (fun _ => Except.ok "r") sampleStore 7 (some "  ")
        sampleDT sampleDT sampleDT = (sampleStore, Output.askText) :=
  ⟨by decide, c8_blank_text _ sampleStore 7 (some "  ") sampleDT sampleDT sampleDT (by decide)⟩

/-! ## Claim C9: message with no text at all -/

/-- Claim C9: a message with no textual content (`message.text` is `None`)
is treated exactly like a whitespace-only one: the ask-for-text reply is
sent and the state is unchanged. -/
theorem c9_none_text (invoke : List Msg → Except String String) (st : StoreState)
    (user_id : Nat) (tsInit ts1 ts2 : DateTime) :
    handle_user_message invoke st user_id none tsInit ts1 ts2 = (st, Output.askText)
    ∧ handle_user_message invoke st user_id none tsInit ts1 ts2
        = handle_user_message invoke st user_id (some "  ") tsInit ts1 ts2 := by
  have h1 : pyIsBlank "" = true := by decide
  have h2 : pyIsBlank "  " = true := by decide
  constructor
  · simp [handle_user_message, h1]
  · simp [handle_user_message, h1, h2]

/-! ## Claim C10: write failure does not clear the session -/

/-- Claim C10: if the file open or any write raises during
`save_dialog_to_file_and_clear` (failure injected after `k` completed
writes), the session map is unchanged — the pop only happens after the
`with` block has written the whole file. -/
theorem c10_write_failure (st : StoreState) (user_id : Nat) (status : String)
    (now1 now2 : DateTime) (k : Nat)
    (h : (save_dialog_to_file_and_clear st user_id status now1 now2 (some k)).2
          = Except.error ()) :
    (save_dialog_to_file_and_clear st user_id status now1 now2 (some k)).1.sessions
      = st.sessions := by
  cases hs : st.sessions user_id with
  | none => simp [save_dialog_to_file_and_clear, hs]
  | some s =>
    by_cases he : s.history.isEmpty <;>
      simp [save_dialog_to_file_and_clear, hs, he]

/-- Witness for C10: user 7's fresh session, failure at the very first
write. -/
theorem c10_write_failure_witness :
    (save_dialog_to_file_and_clear sampleStore 7 "solved" sampleDT sampleDT (some 0)).2
      = Except.error ()
    ∧ (save_dialog_to_file_and_clear sampleStore 7 "solved" sampleDT sampleDT (some 0)).1.sessions
        = sampleStore.sessions :=
  ⟨rfl, c10_write_failure sampleStore 7 "solved" sampleDT sampleDT 0 rfl⟩

/-! ## Claim C4: a successful save clears the session -/

/-- Claim C4: when `save_dialog_to_file_and_clear` succeeds with a non-empty
filename, the store holds no session for that user afterwards, and an
immediately following call for the same user returns the empty result and
leaves the store unchanged — in particular it writes no second file. -/
theorem c4_save_clears (st : StoreState) (user_id : Nat) (status status2 : String)
    (now1 now2 now1' now2' : DateTime) (fn : String)
    (h : (save_dialog_to_file_and_clear st user_id status now1 now2 none).2 = Except.ok fn)
    (hfn : fn ≠ "") :
    (save_dialog_to_file_and_clear st user_id status now1 now2 none).1.sessions user_id = none
    ∧ save_dialog_to_file_and_clear
        (save_dialog_to_file_and_clear st user_id status now1 now2 none).1
        user_id status2 now1' now2' none
      = ((save_dialog_to_file_and_clear st user_id status now1 now2 none).1,
         Except.ok "") := by
  cases hs : st.sessions user_id with
  | none =>
    exfalso
    apply hfn
    simp [save_dialog_to_file_and_clear, hs] at h
    exact h.symm
  | some s =>
    by_cases he : s.history.isEmpty
    · exfalso
      apply hfn
      simp [save_dialog_to_file_and_clear, hs, he] at h
      exact h.symm
    · have h1 : (save_dialog_to_file_and_clear st user_id status now1 now2 none).1.sessions
          user_id = none := by
        simp [save_dialog_to_file_and_clear, hs, he]
      refine ⟨h1, ?_⟩
      generalize (save_dialog_to_file_and_clear st user_id status now1 now2 none).1 = st2 at h1 ⊢
      simp [save_dialog_to_file_and_clear, h1]

/-- Witness for C4: user 7's fresh session; the spec's `solved` then `solved`
scenario. -/
theorem c4_save_clears_witness :
    ((save_dialog_to_file_and_clear sampleStore 7 "solved" sampleDT sampleDT none).2
        = Except.ok "dialog_7_solved_20260101_120000.txt"
      ∧ ("dialog_7_solved_20260101_120000.txt" : String) ≠ "")
    ∧ ((save_dialog_to_file_and_clear sampleStore 7 "solved" sampleDT sampleDT none).1.sessions 7
          = none
      ∧ save_dialog_to_file_and_clear
          (save_dialog_to_file_and_clear sampleStore 7 "solved" sampleDT sampleDT none).1
          7 "solved" sampleDT sampleDT none
        = ((save_dialog_to_file_and_clear sampleStore 7 "solved" sampleDT sampleDT none).1,
           Except.ok "")) :=
  ⟨⟨rfl, by decide⟩,
    c4_save_clears sampleStore 7 "solved" "solved" sampleDT sampleDT sampleDT sampleDT
      "dialog_7_solved_20260101_120000.txt" rfl (by decide)⟩

/-! ## Claim C7: the filename shape -/

/-- Each of the ten decimal digit characters satisfies `Char.isDigit`. -/
theorem digitChar_lt_ten_isDigit : ∀ n < 10, (Nat.digitChar n).isDigit = true := by decide

/-- `Nat.digitChar` of a remainder mod 10 is a digit character. -/
theorem digitChar_mod_isDigit (n : Nat) : (Nat.digitChar (n % 10)).isDigit = true :=
  digitChar_lt_ten_isDigit (n % 10) (Nat.mod_lt n (by norm_num))

/-- The two-digit rendering, spelled out. -/
theorem fixedDigits_two (n : Nat) :
    fixedDigits 2 n = [Nat.digitChar (n / 10 % 10), Nat.digitChar (n % 10)] := by
  simp [fixedDigits]

/-- The four-digit rendering, spelled out. -/
theorem fixedDigits_four (n : Nat) :
    fixedDigits 4 n
      = [Nat.digitChar (n / 10 / 10 / 10 % 10), Nat.digitChar (n / 10 / 10 % 10),
         Nat.digitChar (n / 10 % 10), Nat.digitChar (n % 10)] := by
  simp [fixedDigits]

/-- The `strftime("%Y%m%d_%H%M%S")` output always matches the
`YYYYMMDD_HHMMSS` pattern. -/
theorem strftimeCompact_isTsPattern (d : DateTime) :
    isTsPattern (strftimeCompact d) = true := by
  simp [strftimeCompact, isTsPattern, fixedDigits_four, fixedDigits_two, digitChar_mod_isDigit]

/-- Claim C7 (counterexample): the code appends `.txt`, so the generated name
is not *exactly* of the shape `dialog_<userId>_<status>_<YYYYMMDD_HHMMSS>`. -/
theorem c7_filename_counterexample :
    (save_dialog_to_file_and_clear sampleStore 7 "solved" sampleDT sampleDT none).2
      = Except.ok "dialog_7_solved_20260101_120000.txt"
    ∧ filenameHasSpecShape 7 "solved" "dialog_7_solved_20260101_120000.txt" = false :=
  ⟨rfl, by decide⟩

/-- Claim C7 (amended): every successful save generates exactly
`dialog_<userId>_<status>_<YYYYMMDD_HHMMSS>.txt`, with the timestamp the
second-precision `strftime` rendering of the clock read at save time. -/
theorem c7_filename_amended (st : StoreState) (user_id : Nat) (status : String)
    (now1 now2 : DateTime) (sess : Session)
    (h1 : st.sessions user_id = some sess) (h2 : sess.history ≠ [])
    (h3 : status = "solved" ∨ status = "unsolved") :
    (save_dialog_to_file_and_clear st user_id status now1 now2 none).2
      = Except.ok ("dialog_" ++ toString user_id ++ "_" ++ status ++ "_"
          ++ strftimeCompact now1 ++ ".txt")
    ∧ isTsPattern (strftimeCompact now1) = true := by
  refine ⟨?_, strftimeCompact_isTsPattern now1⟩
  cases hh : sess.history with
  | nil => exact absurd hh h2
  | cons a l => simp [save_dialog_to_file_and_clear, h1, hh]

/-- Witness for C7 (amended) at user 7, status `solved`, the sample clock. -/
theorem c7_filename_amended_witness :
    (sampleStore.sessions 7
        = some { messages := [Msg.system SYSTEM_PROMPT],
                 history := [{ role := "system", text := SYSTEM_PROMPT, ts := "t0" }] }
      ∧ ([{ role := "system", text := SYSTEM_PROMPT, ts := "t0" }] : List HistRec) ≠ []
      ∧ (("solved" : String) = "solved" ∨ ("solved" : String) = "unsolved"))
    ∧ ((save_dialog_to_file_and_clear sampleStore 7 "solved" sampleDT sampleDT none).2
        = Except.ok ("dialog_" ++ toString 7 ++ "_" ++ "solved" ++ "_"
            ++ strftimeCompact sampleDT ++ ".txt")
      ∧ isTsPattern (strftimeCompact sampleDT) = true) :=
  ⟨⟨rfl, by decide, Or.inl rfl⟩,
    c7_filename_amended sampleStore 7 "solved" sampleDT sampleDT _ rfl (by decide) (Or.inl rfl)⟩

/-! ## Claim C6: the transcript contents -/

/-- Folding writes over any accumulator splits off the accumulator. -/
theorem foldl_append_str (ws : List String) (acc : String) :
    ws.foldl (fun a w => a ++ w) acc = acc ++ ws.foldl (fun a w => a ++ w) "" := by
  induction ws generalizing acc with
  | nil => simp [String.append_empty]
  | cons w ws ih =>
    simp only [List.foldl_cons]
    rw [ih (acc ++ w), ih ("" ++ w), String.empty_append, String.append_assoc]

/-- The empty write sequence produces the empty file. -/
theorem fileContent_nil : fileContent [] = "" := rfl

/-- The file produced by a write followed by further writes. -/
theorem fileContent_cons (w : String) (ws : List String) :
    fileContent (w :: ws) = w ++ fileContent ws := by
  simp only [fileContent, List.foldl_cons]
  rw [foldl_append_str, String.empty_append]

/-- `transcriptLine`, reassociated to expose the timestamp prefix. -/
theorem transcriptLine_expand (r : HistRec) :
    transcriptLine r = r.ts ++ ("  " ++ (pyUpper r.role ++ (": " ++ (r.text ++ "\n\n")))) := by
  simp [transcriptLine, String.append_assoc]

/-- A session holding the spec's example dialog
`[system, user:"A", bot:"B", user:"C", bot:"D"]`. -/
def dialogSession : Session :=
  { messages := [Msg.system SYSTEM_PROMPT],
    history := [{ role := "system", text := SYSTEM_PROMPT, ts := "t0" },
                { role := "user", text := "A", ts := "t1" },
                { role := "bot", text := "B", ts := "t2" },
                { role := "user", text := "C", ts := "t3" },
                { role := "bot", text := "D", ts := "t4" }] }

/-- A store where user 7 holds the example dialog. -/
def dialogStore : StoreState :=
  { sessions := fun u => if u = 7 then some dialogSession else none, files := [] }

/-- Claim C6 (counterexample): for the example dialog the written transcript
is *not* the header followed by only the four user/bot entries — the system
record is written first, so "exactly those four entries follow the header"
fails. -/
theorem c6_transcript_counterexample :
    (save_dialog_to_file_and_clear dialogStore 7 "solved" sampleDT sampleDT none).1.files
      ≠ [("dialog_7_solved_20260101_120000.txt",
          transcriptHeader 7 sampleDT "solved"
            ++ fileContent (List.map transcriptLine
                 [{ role := "user", text := "A", ts := "t1" },
                  { role := "bot", text := "B", ts := "t2" },
                  { role := "user", text := "C", ts := "t3" },
                  { role := "bot", text := "D", ts := "t4" }]))] := by
  decide

/-- Claim C6 (amended): the transcript of every non-empty session is the
header followed by every history record in chronological order, each
rendered `<timestamp>  <ROLE>: <text>` with a blank line after it; for the
example dialog the entries after the header are exactly the system record
followed by the four user/bot records, in that order. -/
theorem c6_transcript_amended :
    (∀ (st : StoreState) (user_id : Nat) (status : String) (now1 now2 : DateTime)
        (sess : Session),
        st.sessions user_id = some sess → sess.history ≠ [] →
        (save_dialog_to_file_and_clear st user_id status now1 now2 none).1.files
          = st.files
            ++ [("dialog_" ++ toString user_id ++ "_" ++ status ++ "_"
                   ++ strftimeCompact now1 ++ ".txt",
                 transcriptHeader user_id now2 status
                   ++ fileContent (sess.history.map transcriptLine))])
    ∧ (∀ t0 t1 t2 t3 t4 : String,
        fileContent (List.map transcriptLine
            [{ role := "system", text := SYSTEM_PROMPT, ts := t0 },
             { role := "user", text := "A", ts := t1 },
             { role := "bot", text := "B", ts := t2 },
             { role := "user", text := "C", ts := t3 },
             { role := "bot", text := "D", ts := t4 }])
          = (t0 ++ ("  SYSTEM: " ++ (SYSTEM_PROMPT ++ "\n\n")))
            ++ ((t1 ++ "  USER: A\n\n")
            ++ ((t2 ++ "  BOT: B\n\n")
            ++ ((t3 ++ "  USER: C\n\n") ++ (t4 ++ "  BOT: D\n\n"))))) := by
  constructor
  · intro st user_id status now1 now2 sess h1 h2
    cases hh : sess.history with
    | nil => exact absurd hh h2
    | cons a l =>
      simp [save_dialog_to_file_and_clear, h1, hh, transcriptWrites, fileContent_cons]
  · intro t0 t1 t2 t3 t4
    have hline : ∀ role text t pat : String,
        ("  " ++ (pyUpper role ++ (": " ++ (text ++ "\n\n")))) = pat →
        transcriptLine { role := role, text := text, ts := t } = t ++ pat := by
      intro role text t pat hp
      rw [transcriptLine_expand, hp]
    simp only [List.map_cons, List.map_nil, fileContent_cons, fileContent_nil]
    rw [hline "system" SYSTEM_PROMPT t0 ("  SYSTEM: " ++ (SYSTEM_PROMPT ++ "\n\n")) (by decide),
        hline "user" "A" t1 "  USER: A\n\n" (by decide),
        hline "bot" "B" t2 "  BOT: B\n\n" (by decide),
        hline "user" "C" t3 "  USER: C\n\n" (by decide),
        hline "bot" "D" t4 "  BOT: D\n\n" (by decide)]
    simp [String.append_empty]

/-- Witness for C6 (amended): the example dialog store, with the concrete
timestamps `t0`..`t4`. -/
theorem c6_transcript_amended_witness :
    (dialogStore.sessions 7 = some dialogSession ∧ dialogSession.history ≠ [])
    ∧ (save_dialog_to_file_and_clear dialogStore 7 "solved" sampleDT sampleDT none).1.files
        = dialogStore.files
          ++ [("dialog_" ++ toString 7 ++ "_" ++ "solved" ++ "_"
                 ++ strftimeCompact sampleDT ++ ".txt",
               transcriptHeader 7 sampleDT "solved"
                 ++ fileContent (dialogSession.history.map transcriptLine))]
    ∧ fileContent (List.map transcriptLine
          [{ role := "system", text := SYSTEM_PROMPT, ts := "t0" },
           { role := "user", text := "A", ts := "t1" },
           { role := "bot", text := "B", ts := "t2" },
           { role := "user", text := "C", ts := "t3" },
           { role := "bot", text := "D", ts := "t4" }])
        = ("t0" ++ ("  SYSTEM: " ++ (SYSTEM_PROMPT ++ "\n\n")))
          ++ (("t1" ++ "  USER: A\n\n")
          ++ (("t2" ++ "  BOT: B\n\n")
          ++ (("t3" ++ "  USER: C\n\n") ++ ("t4" ++ "  BOT: D\n\n")))) :=
  ⟨⟨rfl, by decide⟩,
    c6_transcript_amended.1 dialogStore 7 "solved" sampleDT sampleDT dialogSession rfl
      (by decide),
    c6_transcript_amended.2 "t0" "t1" "t2" "t3" "t4"⟩

/-! ## Claim C2: the session invariant -/

/-- The per-session invariant: the prompt list starts with the system
instruction, and the history starts with the system record (whose timestamp
is whatever the creation-time clock read was). -/
def sessionWF (s : Session) : Prop :=
  s.messages.head? = some (Msg.system SYSTEM_PROMPT)
  ∧ ∃ t, s.history.head? = some { role := "system", text := SYSTEM_PROMPT, ts := t }

/-- `init_session` creates only well-formed sessions and preserves existing
ones. -/
theorem init_session_wf (ss : Nat → Option Session) (user_id : Nat) (now : DateTime)
    (hIH : ∀ u s, ss u = some s → sessionWF s) :
    ∀ u s, init_session ss user_id now u = some s → sessionWF s := by
  intro u s h
  cases hs : ss user_id with
  | some s0 =>
    simp only [init_session, hs] at h
    exact hIH u s h
  | none =>
    simp only [init_session, hs] at h
    split at h
    · simp only [Option.some.injEq] at h
      subst h
      exact ⟨rfl, isoformat now, rfl⟩
    · exact hIH u s h

/-- The state change of a resolution callback is that of the save. -/
theorem cb_resolution_fst (st : StoreState) (user_id : Nat) (solved : Bool)
    (now1 now2 : DateTime) (failAt : Option Nat) :
    (cb_resolution st user_id solved now1 now2 failAt).1
      = (save_dialog_to_file_and_clear st user_id
           (if solved then "solved" else "unsolved") now1 now2 failAt).1 := by
  unfold cb_resolution
  cases hsv : save_dialog_to_file_and_clear st user_id
      (if solved then "solved" else "unsolved") now1 now2 failAt with
  | mk st2 r =>
    simp only [hsv]
    cases r <;> rfl

/-- A save either leaves a user's map entry unchanged or removes it. -/
theorem save_sessions_cases (st : StoreState) (user_id : Nat) (status : String)
    (now1 now2 : DateTime) (failAt : Option Nat) (u : Nat) :
    (save_dialog_to_file_and_clear st user_id status now1 now2 failAt).1.sessions u
        = st.sessions u
    ∨ (save_dialog_to_file_and_clear st user_id status now1 now2 failAt).1.sessions u
        = none := by
  cases hs : st.sessions user_id with
  | none => left; simp [save_dialog_to_file_and_clear, hs]
  | some s0 =>
    by_cases he : s0.history.isEmpty
    · left; simp [save_dialog_to_file_and_clear, hs, he]
    · cases failAt with
      | some k => left; simp [save_dialog_to_file_and_clear, hs, he]
      | none =>
        by_cases hu : u = user_id
        · right; simp [save_dialog_to_file_and_clear, hs, he, hu]
        · left; simp [save_dialog_to_file_and_clear, hs, he, hu]

/-- One event preserves well-formedness of every stored session. -/
theorem step_wf (invoke : List Msg → Except String String) (st : StoreState) (e : Event)
    (hIH : ∀ u s, st.sessions u = some s → sessionWF s) :
    ∀ u s, (step invoke st e).sessions u = some s → sessionWF s := by
  intro u s h
  cases e with
  | start uid now =>
    simp only [step, cmd_start] at h
    exact init_session_wf st.sessions uid now hIH u s h
  | msg uid t ti t1 t2 =>
    simp only [step] at h
    by_cases hb : pyIsBlank (t.getD "") = true
    · simp [handle_user_message, hb] at h
      exact hIH u s h
    · cases hs : st.sessions uid with
      | some s0 =>
        simp [handle_user_message, hb, hs] at h
        split at h
        · simp only [Option.some.injEq] at h
          subst h
          obtain ⟨hm, tt, hh⟩ := hIH uid s0 hs
          exact ⟨by simp [List.head?_append, hm], tt, by simp [List.head?_append, hh]⟩
        · exact hIH u s h
      | none =>
        simp [handle_user_message, hb, hs] at h
        split at h
        · simp only [Option.some.injEq] at h
          subst h
          exact ⟨by simp [List.head?_append], isoformat ti, by simp [List.head?_append]⟩
        · exact hIH u s h
  | resolve uid solved n1 n2 fa =>
    simp only [step] at h
    rw [cb_resolution_fst] at h
    rcases save_sessions_cases st uid (if solved then "solved" else "unsolved") n1 n2 fa u
      with hc | hc
    · rw [hc] at h
      exact hIH u s h
    · rw [hc] at h
      simp at h

/-- Every state reachable from process start holds only well-formed
sessions. -/
theorem runEvents_wf (invoke : List Msg → Except String String) (es : List Event) :
    ∀ u s, (runEvents invoke es).sessions u = some s → sessionWF s := by
  suffices hgen : ∀ (es : List Event) (st : StoreState),
      (∀ u s, st.sessions u = some s → sessionWF s) →
      ∀ u s, (es.foldl (step invoke) st).sessions u = some s → sessionWF s by
    intro u s h
    refine hgen es initialStore ?_ u s h
    intro u' s' h'
    simp [initialStore] at h'
  intro es
  induction es with
  | nil =>
    intro st hst
    exact hst
  | cons e es ih =>
    intro st hst u s h
    simp only [List.foldl_cons] at h
    exact ih (step invoke st e) (step_wf invoke st e hst) u s h

/-- While a user's session survives one event, it only grows by appends at
the end of `messages` and `history`. -/
theorem step_extends (invoke : List Msg → Except String String) (st : StoreState)
    (e : Event) (u : Nat) (s s' : Session)
    (h1 : st.sessions u = some s) (h2 : (step invoke st e).sessions u = some s') :
    ∃ a b, s'.messages = s.messages ++ a ∧ s'.history = s.history ++ b := by
  cases e with
  | start uid now =>
    simp only [step, cmd_start] at h2
    cases hs : st.sessions uid with
    | some s0 =>
      simp only [init_session, hs] at h2
      rw [h1] at h2
      simp only [Option.some.injEq] at h2
      subst h2
      exact ⟨[], [], by simp, by simp⟩
    | none =>
      simp only [init_session, hs] at h2
      split at h2
      · rename_i hu
        rw [hu, hs] at h1
        simp at h1
      · rw [h1] at h2
        simp only [Option.some.injEq] at h2
        subst h2
        exact ⟨[], [], by simp, by simp⟩
  | msg uid t ti t1 t2 =>
    simp only [step] at h2
    by_cases hb : pyIsBlank (t.getD "") = true
    · simp [handle_user_message, hb] at h2
      rw [h1] at h2
      simp only [Option.some.injEq] at h2
      subst h2
      exact ⟨[], [], by simp, by simp⟩
    · by_cases hu : u = uid
      · subst hu
        simp [handle_user_message, hb, h1] at h2
        subst h2
        refine ⟨[Msg.human (t.getD ""),
                 Msg.system (call_gigachat invoke (s.messages ++ [Msg.human (t.getD "")]))],
                [{ role := "user", text := t.getD "", ts := isoformat t1 },
                 { role := "bot",
                   text := call_gigachat invoke (s.messages ++ [Msg.human (t.getD "")]),
                   ts := isoformat t2 }], ?_, ?_⟩ <;> simp
      · simp [handle_user_message, hb, hu] at h2
        rw [h1] at h2
        simp only [Option.some.injEq] at h2
        subst h2
        exact ⟨[], [], by simp, by simp⟩
  | resolve uid solved n1 n2 fa =>
    simp only [step] at h2
    rw [cb_resolution_fst] at h2
    rcases save_sessions_cases st uid (if solved then "solved" else "unsolved") n1 n2 fa u
      with hc | hc
    · rw [hc, h1] at h2
      simp only [Option.some.injEq] at h2
      subst h2
      exact ⟨[], [], by simp, by simp⟩
    · rw [hc] at h2
      simp at h2

/-- Claim C2: in every state reachable by any event sequence from process
start, every live session has the system instruction as `messages[0]` and
the system record as `history[0]`; and across any further event the
session, while it survives, changes only by appending to the end of both
sequences. -/
theorem c2_session_invariant (invoke : List Msg → Except String String) (es : List Event)
    (u : Nat) (s : Session)
    (h : (runEvents invoke es).sessions u = some s) :
    (s.messages.head? = some (Msg.system SYSTEM_PROMPT)
      ∧ ∃ t, s.history.head? = some { role := "system", text := SYSTEM_PROMPT, ts := t })
    ∧ ∀ (e : Event) (s' : Session),
        (step invoke (runEvents invoke es) e).sessions u = some s' →
        ∃ a b, s'.messages = s.messages ++ a ∧ s'.history = s.history ++ b := by
  refine ⟨runEvents_wf invoke es u s h, ?_⟩
  intro e s' h'
  exact step_extends invoke (runEvents invoke es) e u s s' h h'

/-- Witness for C2: after `/start` from user 1, user 1's session is live and
satisfies the invariant. -/
theorem c2_session_invariant_witness :
    (runEvents (fun _ => Except.ok "reply") [Event.start 1 sampleDT]).sessions 1
        = some { messages := [Msg.system SYSTEM_PROMPT],
                 history := [{ role := "system", text := SYSTEM_PROMPT,
                               ts := isoformat sampleDT }] }
    ∧ (((Session.mk [Msg.system SYSTEM_PROMPT]
            [{ role := "system", text := SYSTEM_PROMPT,
               ts := isoformat sampleDT }]).messages.head?
          = some (Msg.system SYSTEM_PROMPT)
        ∧ ∃ t, (Session.mk [Msg.system SYSTEM_PROMPT]
            [{ role := "system", text := SYSTEM_PROMPT,
               ts := isoformat sampleDT }]).history.head?
              = some { role := "system", text := SYSTEM_PROMPT, ts := t })
      ∧ ∀ (e : Event) (s' : Session),
          (step (fun _ => Except.ok "reply")
              (runEvents (fun _ => Except.ok "reply") [Event.start 1 sampleDT]) e).sessions 1
            = some s' →
          ∃ a b, s'.messages = [Msg.system SYSTEM_PROMPT] ++ a
            ∧ s'.history = [{ role := "system", text := SYSTEM_PROMPT,
                              ts := isoformat sampleDT }] ++ b) :=
  ⟨rfl, c2_session_invariant (fun _ => Except.ok "reply") [Event.start 1 sampleDT] 1 _ rfl⟩
